import Mathlib

/-
Shallow embedding of the gh-jira-hackathon synchronizer.

Source files embedded here:
  - src/pkg/summarizer/summarizer.go : the streaming summary generator
    (SummarizeWithCustomPrompt and its consumer select loop).
  - src/main.go : the poll cycle (pollGitHub), the Jira issue creation
    (createJiraIssue), the link-back update (updateGitHubIssueWithJiraLink)
    and the in-memory deduplication ledger (processedIssueIDs).

src/main.go is the entrypoint of the repository and is taken as the
authoritative variant of the poll cycle; the unnamed file
src/unnamed/part_000 is an older copy of the same program (same package,
same function names, no link-back step) that cannot be built together
with main.go and is superseded by it.

External collaborators (the GitHub REST client, the Jira REST endpoint,
the Ollama model endpoint) are modelled as explicit oracles: the poll
cycle receives, per fetched issue, the outcome of the summary call, the
HTTP response of the Jira creation call, and the outcome of the GitHub
edit call, and the embedding reproduces exactly what the Go control flow
does with those outcomes.
-/

namespace GhJira

/-! Summarizer: src/pkg/summarizer/summarizer.go -/

/-- Error values that SummarizeWithCustomPrompt can return: the wrapped
producer error from errChan (line 168) or the context error from
ctx.Done (line 179). The code has no other error return in its
collection loop; in particular there is no configuration-error case. -/
inductive SumErr where
  | producer (msg : String)
  | ctxCancelled
deriving DecidableEq, Repr

/-- The Go pair (string, error) returned by the summary call: err = none
models a nil error. -/
structure GoResult where
  text : String
  err : Option SumErr
deriving DecidableEq, Repr

/-- One event observed by the consumer select loop of
SummarizeWithCustomPrompt (summarizer.go lines 163-181), in the order
the select statement sees them:
  - fragment s : a response chunk received on the stream channel;
  - errNil : a receive from the closed errChan yielding a nil error,
    which the code tests with if err != nil and ignores;
  - errorEv msg : a non-nil error received from errChan;
  - streamClosed : the stream channel is closed (normal completion);
  - ctxDone : the caller context is cancelled or its deadline elapsed. -/
inductive StreamEvent where
  | fragment (s : String)
  | errNil
  | errorEv (msg : String)
  | streamClosed
  | ctxDone
deriving DecidableEq, Repr

/-- Concatenation of fragments in arrival order, the value strings.Builder
accumulates via WriteString. -/
def concatAll : List String → String
  | [] => ""
  | s :: rest => s ++ concatAll rest

/-- The consumer select loop of SummarizeWithCustomPrompt
(summarizer.go lines 163-181), run over the ordered sequence of events it
observes. Returns none when the event sequence runs out without a
terminating event (the Go loop would block forever).
  - fragment: fullResponse.WriteString(response.Response), loop again;
  - errNil: the if err != nil branch is skipped, loop again;
  - errorEv: return "", fmt.Errorf(...) - accumulated text discarded;
  - streamClosed: return fullResponse.String(), nil;
  - ctxDone: return "", ctx.Err() - accumulated text discarded. -/
def collectLoop : List StreamEvent → String → Option GoResult
  | [], _ => none
  | StreamEvent.fragment s :: rest, acc => collectLoop rest (acc ++ s)
  | StreamEvent.errNil :: rest, acc => collectLoop rest acc
  | StreamEvent.errorEv msg :: _, _ => some ⟨"", some (SumErr.producer msg)⟩
  | StreamEvent.streamClosed :: _, acc => some ⟨acc, none⟩
  | StreamEvent.ctxDone :: _, _ => some ⟨"", some SumErr.ctxCancelled⟩

/-- Go fmt.Sprintf restricted to string verbs, as used at
summarizer.go line 135: the first %s in the template is replaced by the
argument; any further %s renders as the fmt artifact %!s(MISSING); if
the template holds no %s at all, fmt appends %!(EXTRA string=arg). -/
def sprintfSAux (arg : String) : List Char → Bool → List Char
  | [], used => if used then [] else ("%!(EXTRA string=" ++ arg ++ ")").data
  | '%' :: 's' :: rest, used =>
      if used then "%!s(MISSING)".data ++ sprintfSAux arg rest used
      else arg.data ++ sprintfSAux arg rest true
  | c :: rest, used => c :: sprintfSAux arg rest used

/-- Go fmt.Sprintf(template, arg) for a template whose only verbs are %s. -/
def sprintf1 (template arg : String) : String :=
  ⟨sprintfSAux arg template.data false⟩

/-- The built-in default prompt template substituted when the caller
passes an empty template (summarizer.go lines 118-130). -/
def defaultTemplate : String :=
  "Please analyze this GitHub issue description and create a clear, structured summary for Jira:\n\n%s\n\nPlease format the response as follows:\n1. Issue Overview (1-2 sentences)\n2. Key Details (bullet points)\n3. Technical Requirements (if any)\n4. Dependencies and Impact (if mentioned)\n"

/-- SummarizeWithCustomPrompt (summarizer.go lines 115-182): substitutes
the default template when the given one is empty, builds the prompt with
fmt.Sprintf(promptTemplate, content) - with no validation of the
placeholder count - and runs the consumer select loop over the events the
stream delivers. The first component is the prompt sent to the model
endpoint, the second the (text, error) pair returned to the caller. -/
def summarizeWithCustomPrompt (content promptTemplate : String)
    (events : List StreamEvent) : String × Option GoResult :=
  let t := if promptTemplate = "" then defaultTemplate else promptTemplate
  (sprintf1 t content, collectLoop events "")

/-! Poll cycle and issue mirror: src/main.go -/

/-- The fields of a fetched GitHub issue that src/main.go reads:
*issue.ID, *issue.Number, *issue.Title, *issue.Body, *issue.HTMLURL and
issue.IsPullRequest(). -/
structure GHIssue where
  id : Int
  number : Int
  title : String
  body : String
  htmlURL : String
  isPullRequest : Bool
deriving DecidableEq, Repr

/-- The deduplication ledger processedIssueIDs (main.go line 28): a Go
map[int64]bool, modelled as its lookup function - a missing key reads as
false, exactly as in Go. -/
def Ledger : Type := Int → Bool

/-- The write processedIssueIDs[id] = true (main.go line 123), the only
write the program ever performs on the ledger. -/
def markProcessed (ledger : Ledger) (id : Int) : Ledger :=
  fun x => if x = id then true else ledger x

/-- The ledger at process start: make(map[int64]bool), every lookup
false. -/
def emptyLedger : Ledger := fun _ => false

/-- Fixed Jira project key (main.go line 26). -/
def jiraProjectKey : String := "GT"

/-- Fixed Jira issue type (main.go line 27). -/
def jiraIssueType : String := "Task"

/-- Configured Jira base URL, os.Getenv(JIRA_BASE_URL) (main.go
line 25): external process configuration, opaque to the core. No claim
inspects a URL built from it, so any fixed value serves. -/
def jiraBaseURL : String := "https://jira.example.invalid"

/-- The fields of the Jira creation payload built at main.go
lines 138-149. -/
structure JiraPayload where
  projectKey : String
  summaryField : String
  descriptionField : String
  issueTypeName : String
deriving DecidableEq, Repr

/-- Payload construction of createJiraIssue (main.go lines 138-149):
summary is fmt.Sprintf("GitHub Issue #%d: %s", *issue.Number,
*issue.Title) and description is fmt.Sprintf("Imported from GitHub:
%s\n\nSummarized Description:\n%s", *issue.HTMLURL, summary). -/
def buildJiraPayload (issue : GHIssue) (summary : String) : JiraPayload :=
  { projectKey := jiraProjectKey
  , summaryField := "GitHub Issue #" ++ toString issue.number ++ ": " ++ issue.title
  , descriptionField :=
      "Imported from GitHub: " ++ issue.htmlURL
        ++ "\n\nSummarized Description:\n" ++ summary
  , issueTypeName := jiraIssueType }

/-- Outcome of the HTTP POST to the Jira creation endpoint as
createJiraIssue observes it: either client.Do returned an error
(transportErr), or a response arrived with a status code and a body; the
body is abstracted to the outcome of json.Unmarshal-ing it for the key
field (parsedKey = none when parsing fails). -/
inductive HttpResult where
  | transportErr (msg : String)
  | response (status : Nat) (parsedKey : Option String)
deriving DecidableEq, Repr

/-- Error values createJiraIssue can return (main.go lines 134-206).
json.Marshal and http.NewRequest cannot fail on this fixed payload and
URL shape, so those early returns are unreachable and not modelled. -/
inductive CreateErr where
  | transport (msg : String)
  | parseKey
  | linkBackFailed (msg : String)
  | badStatus (status : Nat)
deriving DecidableEq, Repr

/-- updateGitHubIssueWithJiraLink (main.go lines 208-243): builds the new
issue body by appending the delimited Jira link section, then calls
client.Issues.Edit; editErr is the outcome of that external call. The
first component is the body sent, the second the returned error. -/
def updateGitHubIssueWithJiraLink (issue : GHIssue) (jiraKey : String)
    (editErr : Option String) : String × Option String :=
  let jiraIssueURL := jiraBaseURL ++ "/browse/" ++ jiraKey
  let base := if issue.body = "" then issue.body else issue.body ++ "\n\n"
  let newDescription :=
    base ++ "---\nLinked Jira Issue: [" ++ jiraKey ++ "](" ++ jiraIssueURL ++ ")"
  match editErr with
  | some m => (newDescription, some ("failed to update GitHub issue: " ++ m))
  | none => (newDescription, none)

/-- createJiraIssue (main.go lines 134-206): builds the payload, posts it,
and on a 2xx response parses the body for the issue key; a parse failure
is returned as an error (line 188), any non-2xx status yields a
descriptive error (line 203), and on a parsed key the link-back update
runs and its failure is returned as an error (line 197). Returns the
payload it built together with the Go error value. -/
def createJiraIssue (issue : GHIssue) (summary : String)
    (resp : HttpResult) (editErr : Option String) : JiraPayload × Option CreateErr :=
  (buildJiraPayload issue summary,
   match resp with
   | HttpResult.transportErr m => some (CreateErr.transport m)
   | HttpResult.response status parsedKey =>
     if 200 ≤ status ∧ status < 300 then
       match parsedKey with
       | none => some CreateErr.parseKey
       | some key =>
         match (updateGitHubIssueWithJiraLink issue key editErr).2 with
         | some m => some (CreateErr.linkBackFailed m)
         | none => none
     else some (CreateErr.badStatus status))

/-- Per-issue outcomes of the external collaborators during one cycle:
the result of the summary call for this issue, the HTTP outcome of the
Jira creation call, and the outcome of the GitHub edit used by the
link-back update. -/
structure IssueEnv where
  summaryResult : Except SumErr String
  createResp : HttpResult
  linkEditErr : Option String
deriving Repr

/-- The per-issue loop of pollGitHub (main.go lines 85-130) over the
fetched issue list, threading the ledger and recording the identifier of
every issue for which createJiraIssue is invoked, in call order:
  - a pull request executes break, ending the scan (line 88);
  - a summary failure executes continue, skipping only this issue
    (line 113);
  - an identifier already in the ledger skips creation (lines 117, 127);
  - otherwise createJiraIssue runs and the identifier is marked
    processed exactly when it returned nil (lines 120-126). -/
def pollLoop : List (GHIssue × IssueEnv) → Ledger → List Int → Ledger × List Int
  | [], ledger, calls => (ledger, calls)
  | (issue, env) :: rest, ledger, calls =>
    if issue.isPullRequest then
      (ledger, calls)
    else
      match env.summaryResult with
      | Except.error _ => pollLoop rest ledger calls
      | Except.ok summary =>
        if ledger issue.id then
          pollLoop rest ledger calls
        else
          match (createJiraIssue issue summary env.createResp env.linkEditErr).2 with
          | none => pollLoop rest (markProcessed ledger issue.id) (calls ++ [issue.id])
          | some _ => pollLoop rest ledger (calls ++ [issue.id])

/-- One run of pollGitHub (main.go lines 65-132): when the initial
list-fetch fails the cycle returns at once with no issue examined
(lines 79-82); otherwise the per-issue loop runs over the fetched list.
Returns the ledger after the cycle and the creation calls it made. -/
def pollOnce (fetch : Option (List (GHIssue × IssueEnv))) (ledger : Ledger) :
    Ledger × List Int :=
  match fetch with
  | none => (ledger, [])
  | some items => pollLoop items ledger []

/-- Repeated scheduler-driven runs of pollGitHub (main.go lines 52-62):
each run starts from the ledger the previous run left; the second
component collects every creation call of every run. -/
def pollRuns : List (Option (List (GHIssue × IssueEnv))) → Ledger → Ledger × List Int
  | [], ledger => (ledger, [])
  | f :: fs, ledger =>
    let r := pollOnce f ledger
    let rest := pollRuns fs r.1
    (rest.1, r.2 ++ rest.2)

end GhJira


namespace GhJira

/-- Shared lemma: the consumer loop folds a run of fragment events into
the accumulator by concatenation in arrival order. -/
theorem collectLoop_map_fragment_append (frags : List String)
    (evs : List StreamEvent) (acc : String) :
    collectLoop (frags.map StreamEvent.fragment ++ evs) acc
      = collectLoop evs (acc ++ concatAll frags) := by
  induction frags generalizing acc with
  | nil => simp [concatAll, String.append_empty]
  | cons f fs ih =>
    simp [collectLoop, concatAll, ih, String.append_assoc]

end GhJira

open GhJira

/-- C6: for every finite ordered sequence of fragments emitted by the
producer followed by normal stream completion, the summary call returns
successfully with exactly the concatenation of the fragments in arrival
order; in particular the fragments Over, view-colon, fix bug yield
Overview: fix bug. -/
theorem summarize_stream_assembly :
    (∀ (content template : String) (frags : List String),
      (summarizeWithCustomPrompt content template
          (frags.map StreamEvent.fragment ++ [StreamEvent.streamClosed])).2
        = some ⟨concatAll frags, none⟩) ∧
    (summarizeWithCustomPrompt "fix bug" "summarize: %s"
        [StreamEvent.fragment "Over", StreamEvent.fragment "view: ",
         StreamEvent.fragment "fix bug", StreamEvent.streamClosed]).2
      = some ⟨"Overview: fix bug", none⟩ := by
  constructor
  · intro content template frags
    simp [summarizeWithCustomPrompt, collectLoop_map_fragment_append,
      collectLoop, String.empty_append]
  · decide

/-- C7: when the producer reports an error, or the caller context is
cancelled or its deadline elapses before normal completion, the summary
call returns a non-nil error together with an empty text result; no
accumulated partial text is ever returned alongside an error. -/
theorem summarize_error_discards_text :
    (∀ (evs : List StreamEvent) (acc : String) (r : GoResult),
      collectLoop evs acc = some r → r.err ≠ none → r.text = "") ∧
    (∀ (content template : String) (frags : List String) (msg : String),
      (summarizeWithCustomPrompt content template
          (frags.map StreamEvent.fragment ++ [StreamEvent.errorEv msg])).2
        = some ⟨"", some (SumErr.producer msg)⟩) ∧
    (∀ (content template : String) (frags : List String),
      (summarizeWithCustomPrompt content template
          (frags.map StreamEvent.fragment ++ [StreamEvent.ctxDone])).2
        = some ⟨"", some SumErr.ctxCancelled⟩) := by
  refine ⟨?_, ?_, ?_⟩
  · intro evs
    induction evs with
    | nil => intro acc r h; simp [collectLoop] at h
    | cons e rest ih =>
      intro acc r h hne
      cases e with
      | fragment s => exact ih _ r h hne
      | errNil => exact ih _ r h hne
      | errorEv msg =>
        simp [collectLoop] at h
        rw [← h]
      | streamClosed =>
        simp [collectLoop] at h
        rw [← h] at hne
        simp at hne
      | ctxDone =>
        simp [collectLoop] at h
        rw [← h]
  · intro content template frags msg
    simp [summarizeWithCustomPrompt, collectLoop_map_fragment_append, collectLoop]
  · intro content template frags
    simp [summarizeWithCustomPrompt, collectLoop_map_fragment_append, collectLoop]

/-- Witness for C7: the first conjunct applied at a concrete run in which
one fragment arrives and then the context deadline fires. -/
theorem summarize_error_discards_text_witness :
    collectLoop [StreamEvent.fragment "x", StreamEvent.ctxDone] ""
      = some ⟨"", some SumErr.ctxCancelled⟩ ∧
    GoResult.text ⟨"", some SumErr.ctxCancelled⟩ = "" :=
  ⟨by decide,
   summarize_error_discards_text.1
     [StreamEvent.fragment "x", StreamEvent.ctxDone] ""
     ⟨"", some SumErr.ctxCancelled⟩ (by decide) (by decide)⟩

/-- C10: SummarizeWithCustomPrompt validates nothing about the template
substitution points: every non-empty template is passed straight through
the string formatter with the content - a mismatched placeholder count
yields formatter artifact text in the prompt - and the call proceeds
exactly as for a well-formed template; the only error outcomes that
exist are producer error and context cancellation. -/
theorem summarize_no_template_validation :
    (∀ (content template : String) (events : List StreamEvent), template ≠ "" →
      summarizeWithCustomPrompt content template events
        = (sprintf1 template content, collectLoop events "")) ∧
    sprintf1 "Summarize %s against %s" "X" = "Summarize X against %!s(MISSING)" ∧
    sprintf1 "Summarize the issue" "X" = "Summarize the issue%!(EXTRA string=X)" ∧
    (∀ r : GoResult, r.err = none ∨
      (∃ msg, r.err = some (SumErr.producer msg)) ∨
      r.err = some SumErr.ctxCancelled) := by
  refine ⟨?_, by decide, by decide, ?_⟩
  · intro content template events h
    simp [summarizeWithCustomPrompt, h]
  · intro r
    match h : r.err with
    | none => exact Or.inl rfl
    | some (SumErr.producer m) => exact Or.inr (Or.inl ⟨m, rfl⟩)
    | some SumErr.ctxCancelled => exact Or.inr (Or.inr rfl)

/-- Witness for C10: the pass-through conjunct applied at a concrete
non-empty template. -/
theorem summarize_no_template_validation_witness :
    summarizeWithCustomPrompt "X" "Summarize %s" [StreamEvent.streamClosed]
      = (sprintf1 "Summarize %s" "X", collectLoop [StreamEvent.streamClosed] "") :=
  summarize_no_template_validation.1 "X" "Summarize %s"
    [StreamEvent.streamClosed] (by decide)

namespace GhJira

/-- Shared lemma: a ledger entry once true stays true across the
per-issue loop; no operation unsets an entry. -/
theorem pollLoop_mono (items : List (GHIssue × IssueEnv)) :
    ∀ (ledger : Ledger) (calls : List Int) (x : Int),
      ledger x = true → (pollLoop items ledger calls).1 x = true := by
  induction items with
  | nil => intro ledger calls x h; simpa [pollLoop] using h
  | cons p rest ih =>
    intro ledger calls x h
    obtain ⟨issue, env⟩ := p
    cases hpr : issue.isPullRequest with
    | true => simpa [pollLoop, hpr] using h
    | false =>
      cases hres : env.summaryResult with
      | error e => simpa [pollLoop, hpr, hres] using ih ledger calls x h
      | ok t =>
        cases hmem : ledger issue.id with
        | true => simpa [pollLoop, hpr, hres, hmem] using ih ledger calls x h
        | false =>
          have h2 : markProcessed ledger issue.id x = true := by
            by_cases hx : x = issue.id <;> simp [markProcessed, hx, h]
          cases hcr : (createJiraIssue issue t env.createResp env.linkEditErr).2 with
          | none => simpa [pollLoop, hpr, hres, hmem, hcr] using ih _ _ x h2
          | some err => simpa [pollLoop, hpr, hres, hmem, hcr] using ih ledger _ x h

/-- Shared lemma: the per-issue loop makes no creation call for an
identifier the ledger already marks processed. -/
theorem pollLoop_no_call_of_processed (items : List (GHIssue × IssueEnv)) :
    ∀ (ledger : Ledger) (calls : List Int) (x : Int),
      ledger x = true → x ∉ calls → x ∉ (pollLoop items ledger calls).2 := by
  induction items with
  | nil => intro ledger calls x h hc; simpa [pollLoop] using hc
  | cons p rest ih =>
    intro ledger calls x h hc
    obtain ⟨issue, env⟩ := p
    cases hpr : issue.isPullRequest with
    | true => simpa [pollLoop, hpr] using hc
    | false =>
      cases hres : env.summaryResult with
      | error e => simpa [pollLoop, hpr, hres] using ih ledger calls x h hc
      | ok t =>
        cases hmem : ledger issue.id with
        | true => simpa [pollLoop, hpr, hres, hmem] using ih ledger calls x h hc
        | false =>
          have hne : x ≠ issue.id := by
            intro hx; rw [hx, hmem] at h; cases h
          have hc2 : x ∉ calls ++ [issue.id] := by
            simp [hc, hne]
          have h2 : markProcessed ledger issue.id x = true := by
            simp [markProcessed, hne, h]
          cases hcr : (createJiraIssue issue t env.createResp env.linkEditErr).2 with
          | none => simpa [pollLoop, hpr, hres, hmem, hcr] using ih _ _ x h2 hc2
          | some err => simpa [pollLoop, hpr, hres, hmem, hcr] using ih ledger _ x h hc2

/-- Shared lemma: any identifier the per-issue loop newly marks processed
belongs to a fetched item whose summary succeeded and whose creation call
returned nil. -/
theorem pollLoop_new_entry (items : List (GHIssue × IssueEnv)) :
    ∀ (ledger : Ledger) (calls : List Int) (x : Int),
      (pollLoop items ledger calls).1 x = true →
      ledger x = true ∨
      ∃ p ∈ items, p.1.id = x ∧ ∃ t, p.2.summaryResult = Except.ok t ∧
        (createJiraIssue p.1 t p.2.createResp p.2.linkEditErr).2 = none := by
  induction items with
  | nil => intro ledger calls x h; exact Or.inl (by simpa [pollLoop] using h)
  | cons p rest ih =>
    intro ledger calls x h
    obtain ⟨issue, env⟩ := p
    cases hpr : issue.isPullRequest with
    | true => exact Or.inl (by simpa [pollLoop, hpr] using h)
    | false =>
      cases hres : env.summaryResult with
      | error e =>
        rcases ih ledger calls x (by simpa [pollLoop, hpr, hres] using h) with h1 | ⟨q, hq, r2⟩
        · exact Or.inl h1
        · exact Or.inr ⟨q, List.mem_cons_of_mem _ hq, r2⟩
      | ok t =>
        cases hmem : ledger issue.id with
        | true =>
          rcases ih ledger calls x (by simpa [pollLoop, hpr, hres, hmem] using h) with h1 | ⟨q, hq, r2⟩
          · exact Or.inl h1
          · exact Or.inr ⟨q, List.mem_cons_of_mem _ hq, r2⟩
        | false =>
          cases hcr : (createJiraIssue issue t env.createResp env.linkEditErr).2 with
          | none =>
            rcases ih _ _ x (by simpa [pollLoop, hpr, hres, hmem, hcr] using h) with h1 | ⟨q, hq, r2⟩
            · by_cases hx : x = issue.id
              · exact Or.inr ⟨(issue, env), List.mem_cons_self _ _, hx.symm, t, hres, hcr⟩
              · exact Or.inl (by simpa [markProcessed, hx] using h1)
            · exact Or.inr ⟨q, List.mem_cons_of_mem _ hq, r2⟩
          | some err =>
            rcases ih ledger _ x (by simpa [pollLoop, hpr, hres, hmem, hcr] using h) with h1 | ⟨q, hq, r2⟩
            · exact Or.inl h1
            · exact Or.inr ⟨q, List.mem_cons_of_mem _ hq, r2⟩

/-- Shared lemma: createJiraIssue returns nil exactly when the response
was 2xx, its body parsed for a key, and the link-back edit succeeded. -/
theorem createJiraIssue_ok_iff (issue : GHIssue) (t : String)
    (resp : HttpResult) (edit : Option String) :
    (createJiraIssue issue t resp edit).2 = none ↔
      (∃ status key, resp = HttpResult.response status (some key) ∧
        200 ≤ status ∧ status < 300) ∧ edit = none := by
  cases resp with
  | transportErr m => simp [createJiraIssue]
  | response status parsedKey =>
    by_cases h2 : 200 ≤ status ∧ status < 300
    · cases parsedKey with
      | none => simp [createJiraIssue, h2]
      | some key =>
        cases edit with
        | none =>
          simp [createJiraIssue, updateGitHubIssueWithJiraLink, h2]
        | some m =>
          simp [createJiraIssue, updateGitHubIssueWithJiraLink, h2]
    · cases parsedKey with
      | none =>
        simp [createJiraIssue, h2]
      | some key =>
        simp [createJiraIssue, h2]

/-- Shared lemma: monotonicity lifted to one whole run of pollGitHub. -/
theorem pollOnce_mono (f : Option (List (GHIssue × IssueEnv)))
    (ledger : Ledger) (x : Int) (h : ledger x = true) :
    (pollOnce f ledger).1 x = true := by
  cases f with
  | none => simpa [pollOnce] using h
  | some items => exact pollLoop_mono items ledger [] x h

/-- Shared lemma: one whole run of pollGitHub makes no creation call for
an identifier already marked processed. -/
theorem pollOnce_no_call_of_processed (f : Option (List (GHIssue × IssueEnv)))
    (ledger : Ledger) (x : Int) (h : ledger x = true) :
    x ∉ (pollOnce f ledger).2 := by
  cases f with
  | none => simp [pollOnce]
  | some items => exact pollLoop_no_call_of_processed items ledger [] x h (by simp)

/-- Shared lemma: monotonicity lifted to any sequence of runs. -/
theorem pollRuns_mono (runs : List (Option (List (GHIssue × IssueEnv)))) :
    ∀ (ledger : Ledger) (x : Int), ledger x = true → (pollRuns runs ledger).1 x = true := by
  induction runs with
  | nil => intro ledger x h; simpa [pollRuns] using h
  | cons f fs ih =>
    intro ledger x h
    simpa [pollRuns] using ih _ x (pollOnce_mono f ledger x h)

end GhJira

/-- C1 counterexample: with a successful creation (status 201, key
parsed) followed by a failing link-back edit, it is false that the
identifier is marked processed and that the next cycle makes no second
creation call for it. -/
theorem partial_success_marking_counterexample :
    ¬ ((pollOnce (some [((⟨1, 7, "T", "B", "U", false⟩ : GHIssue),
          (⟨Except.ok "S", HttpResult.response 201 (some "GT-9"),
            some "edit failed"⟩ : IssueEnv))]) emptyLedger).1 1 = true ∧
       (pollOnce (some [((⟨1, 7, "T", "B", "U", false⟩ : GHIssue),
          (⟨Except.ok "S", HttpResult.response 201 (some "GT-9"),
            some "edit failed"⟩ : IssueEnv))])
         ((pollOnce (some [((⟨1, 7, "T", "B", "U", false⟩ : GHIssue),
            (⟨Except.ok "S", HttpResult.response 201 (some "GT-9"),
              some "edit failed"⟩ : IssueEnv))]) emptyLedger).1)).2 = []) := by
  decide

/-- C1 amended: when creation succeeds (2xx response parsed for a key)
but the link-back update of the source issue fails, createJiraIssue
returns the link-back error, the identifier is NOT marked processed, and
the next cycle performs a second creation call for that identifier. -/
theorem link_back_failure_not_marked (issue : GHIssue) (env : IssueEnv)
    (ledger : Ledger) (status : Nat) (key m t : String)
    (hpr : issue.isPullRequest = false)
    (hsum : env.summaryResult = Except.ok t)
    (hresp : env.createResp = HttpResult.response status (some key))
    (h2a : 200 ≤ status) (h2b : status < 300)
    (hlink : env.linkEditErr = some m)
    (hnew : ledger issue.id = false) :
    (createJiraIssue issue t env.createResp env.linkEditErr).2
      = some (CreateErr.linkBackFailed ("failed to update GitHub issue: " ++ m)) ∧
    (pollOnce (some [(issue, env)]) ledger).1 issue.id = false ∧
    (pollOnce (some [(issue, env)])
        ((pollOnce (some [(issue, env)]) ledger).1)).2 = [issue.id] := by
  have hcr : (createJiraIssue issue t env.createResp env.linkEditErr).2
      = some (CreateErr.linkBackFailed ("failed to update GitHub issue: " ++ m)) := by
    simp [createJiraIssue, hresp, hlink, updateGitHubIssueWithJiraLink, h2a, h2b]
  refine ⟨hcr, ?_, ?_⟩ <;>
    simp [pollOnce, pollLoop, hpr, hsum, hnew, hcr]

/-- Witness for the amended C1, at a concrete issue and a concrete
environment with a 201 creation response and a failing edit. -/
theorem link_back_failure_not_marked_witness :
    (createJiraIssue ⟨1, 7, "T", "B", "U", false⟩ "S"
        (HttpResult.response 201 (some "GT-9")) (some "edit failed")).2
      = some (CreateErr.linkBackFailed ("failed to update GitHub issue: " ++ "edit failed")) ∧
    (pollOnce (some [(⟨1, 7, "T", "B", "U", false⟩,
        ⟨Except.ok "S", HttpResult.response 201 (some "GT-9"), some "edit failed"⟩)])
      emptyLedger).1 1 = false ∧
    (pollOnce (some [(⟨1, 7, "T", "B", "U", false⟩,
        ⟨Except.ok "S", HttpResult.response 201 (some "GT-9"), some "edit failed"⟩)])
      ((pollOnce (some [(⟨1, 7, "T", "B", "U", false⟩,
          ⟨Except.ok "S", HttpResult.response 201 (some "GT-9"), some "edit failed"⟩)])
        emptyLedger).1)).2 = [1] :=
  link_back_failure_not_marked ⟨1, 7, "T", "B", "U", false⟩
    ⟨Except.ok "S", HttpResult.response 201 (some "GT-9"), some "edit failed"⟩
    emptyLedger 201 "GT-9" "edit failed" "S"
    rfl rfl rfl (by decide) (by decide) rfl rfl

/-- C2: evaluation at the failing input - a pull request first in the
fetched list, followed by an ordinary issue whose summary and creation
would both succeed: the loop executes break at the pull request, so the
following issue is never examined, zero creation calls are made and
nothing is marked processed. -/
theorem pr_break_stops_scan :
    (pollOnce (some [((⟨1, 1, "a pull request", "", "", true⟩ : GHIssue),
        (⟨Except.ok "S", HttpResult.response 201 (some "GT-1"), none⟩ : IssueEnv)),
       ((⟨2, 2, "bug", "body", "url", false⟩ : GHIssue),
        (⟨Except.ok "S", HttpResult.response 201 (some "GT-2"), none⟩ : IssueEnv))])
      emptyLedger).2 = [] ∧
    (pollOnce (some [((⟨1, 1, "a pull request", "", "", true⟩ : GHIssue),
        (⟨Except.ok "S", HttpResult.response 201 (some "GT-1"), none⟩ : IssueEnv)),
       ((⟨2, 2, "bug", "body", "url", false⟩ : GHIssue),
        (⟨Except.ok "S", HttpResult.response 201 (some "GT-2"), none⟩ : IssueEnv))])
      emptyLedger).1 2 = false := by
  decide

/-- C3: when the summary call of the first candidate issue fails and
that of the second succeeds, the failure does not abort the cycle: the first issue
is not marked processed, the second is still created and marked
processed, and the only creation call of the cycle is for the second
issue. -/
theorem failure_isolation_two_issues (i1 i2 : GHIssue) (e1 e2 : IssueEnv)
    (ledger : Ledger)
    (h1pr : i1.isPullRequest = false) (h2pr : i2.isPullRequest = false)
    (hfail : ∃ err, e1.summaryResult = Except.error err)
    (hok : ∃ t, e2.summaryResult = Except.ok t ∧
      (createJiraIssue i2 t e2.createResp e2.linkEditErr).2 = none)
    (hnew1 : ledger i1.id = false) (hnew2 : ledger i2.id = false)
    (hne : i1.id ≠ i2.id) :
    (pollOnce (some [(i1, e1), (i2, e2)]) ledger).1 i1.id = false ∧
    (pollOnce (some [(i1, e1), (i2, e2)]) ledger).1 i2.id = true ∧
    (pollOnce (some [(i1, e1), (i2, e2)]) ledger).2 = [i2.id] := by
  obtain ⟨err, he1⟩ := hfail
  obtain ⟨t, he2, hcr⟩ := hok
  refine ⟨?_, ?_, ?_⟩ <;>
    simp [pollOnce, pollLoop, h1pr, h2pr, he1, he2, hnew2, hcr, markProcessed,
      hne, hnew1]

/-- Witness for C3: a concrete pair of issues where the first summary
call reports a producer error and the second succeeds end to end. -/
theorem failure_isolation_two_issues_witness :
    (pollOnce (some [(⟨1, 1, "first", "b1", "u1", false⟩,
        ⟨Except.error (SumErr.producer "model down"), HttpResult.transportErr "unused", none⟩),
      (⟨2, 2, "second", "b2", "u2", false⟩,
        ⟨Except.ok "S", HttpResult.response 201 (some "GT-2"), none⟩)])
      emptyLedger).1 1 = false ∧
    (pollOnce (some [(⟨1, 1, "first", "b1", "u1", false⟩,
        ⟨Except.error (SumErr.producer "model down"), HttpResult.transportErr "unused", none⟩),
      (⟨2, 2, "second", "b2", "u2", false⟩,
        ⟨Except.ok "S", HttpResult.response 201 (some "GT-2"), none⟩)])
      emptyLedger).1 2 = true ∧
    (pollOnce (some [(⟨1, 1, "first", "b1", "u1", false⟩,
        ⟨Except.error (SumErr.producer "model down"), HttpResult.transportErr "unused", none⟩),
      (⟨2, 2, "second", "b2", "u2", false⟩,
        ⟨Except.ok "S", HttpResult.response 201 (some "GT-2"), none⟩)])
      emptyLedger).2 = [2] :=
  failure_isolation_two_issues
    ⟨1, 1, "first", "b1", "u1", false⟩ ⟨2, 2, "second", "b2", "u2", false⟩
    ⟨Except.error (SumErr.producer "model down"), HttpResult.transportErr "unused", none⟩
    ⟨Except.ok "S", HttpResult.response 201 (some "GT-2"), none⟩
    emptyLedger rfl rfl ⟨SumErr.producer "model down", rfl⟩
    ⟨"S", rfl, by decide⟩ rfl rfl (by decide)

/-- C4: for every identifier already marked processed in the ledger, any
run of pollGitHub - and any sequence of repeated runs - performs zero
creation calls for that identifier. -/
theorem processed_issue_zero_creation_calls (id : Int) :
    ∀ (runs : List (Option (List (GHIssue × IssueEnv)))) (ledger : Ledger),
      ledger id = true → id ∉ (pollRuns runs ledger).2 := by
  intro runs
  induction runs with
  | nil => intro ledger h; simp [pollRuns]
  | cons f fs ih =>
    intro ledger h hmem
    rcases List.mem_append.mp (by simpa [pollRuns] using hmem) with h1 | h2
    · exact pollOnce_no_call_of_processed f ledger id h h1
    · exact ih _ (pollOnce_mono f ledger id h) h2

/-- Witness for C4: identifier 5 is already processed; a run over a list
containing an issue with that identifier makes no creation call. -/
theorem processed_issue_zero_creation_calls_witness :
    (5 : Int) ∉ (pollRuns [some [((⟨5, 1, "t", "b", "u", false⟩ : GHIssue),
        (⟨Except.ok "S", HttpResult.response 200 (some "GT-1"), none⟩ : IssueEnv))]]
      (markProcessed emptyLedger 5)).2 :=
  processed_issue_zero_creation_calls 5
    [some [(⟨5, 1, "t", "b", "u", false⟩,
      ⟨Except.ok "S", HttpResult.response 200 (some "GT-1"), none⟩)]]
    (markProcessed emptyLedger 5) (by decide)

/-- C5: the ledger invariant - an entry once true stays true across a
run and across any sequence of runs (the processed set grows
monotonically and is never unset), a newly processed identifier always
comes from a fetched item whose summary succeeded and whose creation
call returned nil, and creation returns nil exactly on the path where
the response was 2xx, its key parsed, and the link-back edit
succeeded. -/
theorem ledger_invariant :
    (∀ (f : Option (List (GHIssue × IssueEnv))) (ledger : Ledger) (x : Int),
      ledger x = true → (pollOnce f ledger).1 x = true) ∧
    (∀ (runs : List (Option (List (GHIssue × IssueEnv)))) (ledger : Ledger) (x : Int),
      ledger x = true → (pollRuns runs ledger).1 x = true) ∧
    (∀ (items : List (GHIssue × IssueEnv)) (ledger : Ledger) (calls : List Int) (x : Int),
      (pollLoop items ledger calls).1 x = true →
      ledger x = true ∨
      ∃ p ∈ items, p.1.id = x ∧ ∃ t, p.2.summaryResult = Except.ok t ∧
        (createJiraIssue p.1 t p.2.createResp p.2.linkEditErr).2 = none) ∧
    (∀ (issue : GHIssue) (t : String) (resp : HttpResult) (edit : Option String),
      (createJiraIssue issue t resp edit).2 = none ↔
        (∃ status key, resp = HttpResult.response status (some key) ∧
          200 ≤ status ∧ status < 300) ∧ edit = none) :=
  ⟨pollOnce_mono, fun runs => pollRuns_mono runs, pollLoop_new_entry,
    createJiraIssue_ok_iff⟩

/-- Witness for C5: monotonicity applied at a concrete marked ledger and
an empty fetch. -/
theorem ledger_invariant_witness :
    (pollOnce none (markProcessed emptyLedger 3)).1 3 = true :=
  ledger_invariant.1 none (markProcessed emptyLedger 3) 3 (by decide)

/-- C8: the creation payload built by createJiraIssue has summary field
GitHub Issue #number: title and a description field containing both the
source issue URL and the generated summary text; concretely, number 42
with title Crash on save gives GitHub Issue #42: Crash on save. -/
theorem creation_payload_shape :
    (∀ (issue : GHIssue) (summary : String) (resp : HttpResult) (edit : Option String),
      (createJiraIssue issue summary resp edit).1 = buildJiraPayload issue summary ∧
      (buildJiraPayload issue summary).summaryField
        = "GitHub Issue #" ++ toString issue.number ++ ": " ++ issue.title ∧
      (∃ pre post, (buildJiraPayload issue summary).descriptionField
          = pre ++ issue.htmlURL ++ post) ∧
      (∃ pre post, (buildJiraPayload issue summary).descriptionField
          = pre ++ summary ++ post)) ∧
    (buildJiraPayload ⟨9, 42, "Crash on save", "steps...",
        "https://github.example/owner/repo/issues/42", false⟩ "S").summaryField
      = "GitHub Issue #42: Crash on save" ∧
    (buildJiraPayload ⟨9, 42, "Crash on save", "steps...",
        "https://github.example/owner/repo/issues/42", false⟩ "S").descriptionField
      = "Imported from GitHub: https://github.example/owner/repo/issues/42\n\nSummarized Description:\nS" := by
  refine ⟨?_, by decide, by decide⟩
  intro issue summary resp edit
  refine ⟨rfl, rfl,
    ⟨"Imported from GitHub: ", "\n\nSummarized Description:\n" ++ summary, ?_⟩,
    ⟨"Imported from GitHub: " ++ issue.htmlURL ++ "\n\nSummarized Description:\n",
      "", ?_⟩⟩
  · simp [buildJiraPayload, String.append_assoc]
  · simp [buildJiraPayload, String.append_assoc, String.append_empty]

/-- C9: a 2xx creation response whose body fails to parse for the issue
key makes createJiraIssue return a non-nil error, so the identifier is
not marked processed and the next cycle performs another creation call
for the same identifier. -/
theorem unparsed_key_error_and_retry (issue : GHIssue) (env : IssueEnv)
    (ledger : Ledger) (status : Nat) (t : String)
    (hpr : issue.isPullRequest = false)
    (hsum : env.summaryResult = Except.ok t)
    (hresp : env.createResp = HttpResult.response status none)
    (h2a : 200 ≤ status) (h2b : status < 300)
    (hnew : ledger issue.id = false) :
    (createJiraIssue issue t env.createResp env.linkEditErr).2 = some CreateErr.parseKey ∧
    (pollOnce (some [(issue, env)]) ledger).1 issue.id = false ∧
    (pollOnce (some [(issue, env)])
        ((pollOnce (some [(issue, env)]) ledger).1)).2 = [issue.id] := by
  have hcr : (createJiraIssue issue t env.createResp env.linkEditErr).2
      = some CreateErr.parseKey := by
    simp [createJiraIssue, hresp, h2a, h2b]
  refine ⟨hcr, ?_, ?_⟩ <;>
    simp [pollOnce, pollLoop, hpr, hsum, hnew, hcr]

/-- Witness for C9: a concrete 200 response with an unparsable body. -/
theorem unparsed_key_error_and_retry_witness :
    (createJiraIssue ⟨1, 7, "T", "B", "U", false⟩ "S"
        (HttpResult.response 200 none) none).2 = some CreateErr.parseKey ∧
    (pollOnce (some [(⟨1, 7, "T", "B", "U", false⟩,
        ⟨Except.ok "S", HttpResult.response 200 none, none⟩)])
      emptyLedger).1 1 = false ∧
    (pollOnce (some [(⟨1, 7, "T", "B", "U", false⟩,
        ⟨Except.ok "S", HttpResult.response 200 none, none⟩)])
      ((pollOnce (some [(⟨1, 7, "T", "B", "U", false⟩,
          ⟨Except.ok "S", HttpResult.response 200 none, none⟩)])
        emptyLedger).1)).2 = [1] :=
  unparsed_key_error_and_retry ⟨1, 7, "T", "B", "U", false⟩
    ⟨Except.ok "S", HttpResult.response 200 none, none⟩
    emptyLedger 200 "S" rfl rfl rfl (by decide) (by decide) rfl
